import Mathlib

/-!
Verification development for the CCOM Bathymetry Downloader.

The Python sources (main.py, map_widget.py) are shallowly embedded below.
Machine floats are modelled by exact rationals, Qt pixel coordinates by
integers, and every event handler becomes an explicit state transition
returning the successor widget state together with the list of observable
effects (emitted signals, started loader threads, drawing commands).
-/

/-- Python int() conversion applied to a rational: truncation toward zero. -/
def pyInt (q : ℚ) : ℤ := if q < 0 then ⌈q⌉ else ⌊q⌋

/-- A Qt pixmap: either the null pixmap or an image with a pixel size and a
content tag identifying the pixel data. -/
inductive QPixmap where
  | null : QPixmap
  | image (w h : Nat) (tag : Nat) : QPixmap
deriving DecidableEq, Repr

/-- QPixmap.isNull from Qt. -/
def QPixmap.isNull : QPixmap → Bool
  | .null => true
  | .image _ _ _ => false

/-- QPixmap.width; the null pixmap has width 0. -/
def QPixmap.width : QPixmap → Nat
  | .null => 0
  | .image w _ _ => w

/-- QPixmap.height; the null pixmap has height 0. -/
def QPixmap.height : QPixmap → Nat
  | .null => 0
  | .image _ h _ => h

/-- QPixmap.scaled with Qt.AspectRatioMode.KeepAspectRatio: the result size
follows QSize.scaled (integer arithmetic, keeping the aspect ratio inside the
target box); the content tag is preserved. -/
def QPixmap.scaledKeepAspect : QPixmap → Nat → Nat → QPixmap
  | .null, _, _ => .null
  | .image w h t, tw, th =>
    if w = 0 ∨ h = 0 then .image tw th t
    else if th * w / h ≤ tw then .image (th * w / h) th t
    else .image tw (tw * h / w) t

/-- A QRect with integer position and size (Qt stores x1, y1, x2, y2; we keep
left, top, width, height, with x2 = left + width - 1). -/
structure QRectZ where
  left : ℤ
  top : ℤ
  width : ℤ
  height : ℤ
deriving DecidableEq, Repr

/-- C-style halving used by QRect (truncation toward zero, as in C++ int
division). -/
def qtHalf (a : ℤ) : ℤ := Int.tdiv a 2

/-- The rectangle of a pixmap of size pw x ph after
rect.moveCenter(widgetRect.center()) for a widget rectangle (0, 0, W, H),
following the Qt integer arithmetic: center x of (x1..x2) is (x1+x2)/2 and
moveCenter sets x1 to cx - (width-1)/2, both with truncating division. -/
def centeredRect (pw ph W H : Nat) : QRectZ :=
  { left := qtHalf ((W : ℤ) - 1) - qtHalf ((pw : ℤ) - 1)
    top := qtHalf ((H : ℤ) - 1) - qtHalf ((ph : ℤ) - 1)
    width := (pw : ℤ)
    height := (ph : ℤ) }

/-- QRect.contains for a QPoint: left <= x <= left+width-1 and
top <= y <= top+height-1 (for the rectangles that occur here width and
height are nonnegative, so no normalization is involved). -/
def rectContains (r : QRectZ) (p : ℤ × ℤ) : Bool :=
  decide (r.left ≤ p.1) && decide (p.1 ≤ r.left + r.width - 1) &&
  decide (r.top ≤ p.2) && decide (p.2 ≤ r.top + r.height - 1)

/-- A world-coordinate bounding box (xmin, ymin, xmax, ymax). -/
structure Extent where
  xmin : ℚ
  ymin : ℚ
  xmax : ℚ
  ymax : ℚ
deriving DecidableEq, Repr

/-- Observable effects of the widget event handlers: emitted selection
signals and started background loader threads. -/
inductive Eff where
  | selectionChanged (xmin ymin xmax ymax : ℚ)
  | selectionCompleted (xmin ymin xmax ymax : ℚ)
  | startBasemapLoader (bbox : Extent) (w h : Nat)
  | startTileLoader (url : String) (bbox : Extent) (w h : Nat) (rf : String)
deriving DecidableEq, Repr

/-- State of MapWidget (map_widget.py, MapWidget.__init__): the attributes
assigned on self, plus the widget size managed by Qt and whether the
bathymetry loader thread is alive (read only by paintEvent). -/
structure MapWidgetState where
  base_url : String
  extent : Extent
  current_pixmap : QPixmap
  basemap_pixmap : QPixmap
  show_basemap : Bool
  bathymetry_opacity : ℚ
  selection_start : Option (ℤ × ℤ)
  selection_end : Option (ℤ × ℤ)
  is_selecting : Bool
  is_panning : Bool
  pan_start : Option (ℤ × ℤ)
  raster_function : String
  map_loaded : Bool
  loading : Bool
  selected_bbox_world : Option Extent
  widgetW : Nat
  widgetH : Nat
  loader_running : Bool
deriving DecidableEq, Repr

/-- MapWidget.screen_to_world (map_widget.py lines 339-359): convert a screen
point to world coordinates, or None when the pixmap is null or the point is
outside the centered pixmap rectangle. Divisions are exact rationals. -/
def screen_to_world (s : MapWidgetState) (point : ℤ × ℤ) : Option (ℚ × ℚ) :=
  if s.current_pixmap.isNull then none
  else
    let r := centeredRect s.current_pixmap.width s.current_pixmap.height s.widgetW s.widgetH
    if rectContains r point then
      let rel_x : ℚ := ((point.1 : ℚ) - (r.left : ℚ)) / (r.width : ℚ)
      let rel_y : ℚ := ((point.2 : ℚ) - (r.top : ℚ)) / (r.height : ℚ)
      some (s.extent.xmin + rel_x * (s.extent.xmax - s.extent.xmin),
            s.extent.ymax - rel_y * (s.extent.ymax - s.extent.ymin))
    else none

/-- MapWidget.world_to_screen (map_widget.py lines 361-376): convert world
coordinates to a screen point (Python int() truncation on both axes), or
None when the pixmap is null. -/
def world_to_screen (s : MapWidgetState) (world_x world_y : ℚ) : Option (ℤ × ℤ) :=
  if s.current_pixmap.isNull then none
  else
    let r := centeredRect s.current_pixmap.width s.current_pixmap.height s.widgetW s.widgetH
    let rel_x : ℚ := (world_x - s.extent.xmin) / (s.extent.xmax - s.extent.xmin)
    let rel_y : ℚ := (s.extent.ymax - world_y) / (s.extent.ymax - s.extent.ymin)
    some (pyInt ((r.left : ℚ) + rel_x * (r.width : ℚ)),
          pyInt ((r.top : ℚ) + rel_y * (r.height : ℚ)))

/-- MapWidget.screen_to_world viewed as a method call on the widget object:
it returns the (unchanged) receiver state paired with the returned value.
Translated line by line from the source, which assigns no attribute of self
(the local pixmap_rect is a copy produced by QPixmap.rect). -/
def screenToWorldMethod (s : MapWidgetState) (point : ℤ × ℤ) :
    MapWidgetState × Option (ℚ × ℚ) :=
  if s.current_pixmap.isNull then (s, none)
  else
    let r := centeredRect s.current_pixmap.width s.current_pixmap.height s.widgetW s.widgetH
    if rectContains r point then
      let rel_x : ℚ := ((point.1 : ℚ) - (r.left : ℚ)) / (r.width : ℚ)
      let rel_y : ℚ := ((point.2 : ℚ) - (r.top : ℚ)) / (r.height : ℚ)
      (s, some (s.extent.xmin + rel_x * (s.extent.xmax - s.extent.xmin),
                s.extent.ymax - rel_y * (s.extent.ymax - s.extent.ymin)))
    else (s, none)

/-- MapWidget.world_to_screen viewed as a method call on the widget object:
returns the (unchanged) receiver state paired with the returned value. -/
def worldToScreenMethod (s : MapWidgetState) (world_x world_y : ℚ) :
    MapWidgetState × Option (ℤ × ℤ) :=
  if s.current_pixmap.isNull then (s, none)
  else
    let r := centeredRect s.current_pixmap.width s.current_pixmap.height s.widgetW s.widgetH
    let rel_x : ℚ := (world_x - s.extent.xmin) / (s.extent.xmax - s.extent.xmin)
    let rel_y : ℚ := (s.extent.ymax - world_y) / (s.extent.ymax - s.extent.ymin)
    (s, some (pyInt ((r.left : ℚ) + rel_x * (r.width : ℚ)),
              pyInt ((r.top : ℚ) + rel_y * (r.height : ℚ))))

/-- The data screen_to_world and world_to_screen may read: the extent, the
nullity and pixel size of the current pixmap, and the widget size. -/
def coordView (s : MapWidgetState) : Extent × Bool × Nat × Nat × Nat × Nat :=
  (s.extent, s.current_pixmap.isNull, s.current_pixmap.width,
   s.current_pixmap.height, s.widgetW, s.widgetH)

/-- MapWidget.get_selection_bbox (map_widget.py lines 378-394): the world
bounding box of the pending selection, normalized with min and max, or None
when an endpoint is missing or falls outside the map. -/
def get_selection_bbox (s : MapWidgetState) : Option Extent :=
  match s.selection_start, s.selection_end with
  | some ps, some pe =>
    match screen_to_world s ps, screen_to_world s pe with
    | some sw, some ew =>
      some { xmin := min sw.1 ew.1, ymin := min sw.2 ew.2,
             xmax := max sw.1 ew.1, ymax := max sw.2 ew.2 }
    | _, _ => none
  | _, _ => none

/-- MapWidget.clear_selection (map_widget.py lines 396-403): reset both the
pending and the completed selection and emit selectionChanged(0,0,0,0). -/
def clear_selection (s : MapWidgetState) : MapWidgetState × List Eff :=
  ({ s with selection_start := none, selection_end := none,
            is_selecting := false, selected_bbox_world := none },
   [Eff.selectionChanged 0 0 0 0])

/-- Request size used by load_map: the widget size, or the 800 x 600 default
while the widget is not sized yet (width component). -/
def loadSizeW (s : MapWidgetState) : Nat :=
  if s.widgetW = 0 ∨ s.widgetH = 0 then 800 else s.widgetW

/-- Request size used by load_map (height component). -/
def loadSizeH (s : MapWidgetState) : Nat :=
  if s.widgetW = 0 ∨ s.widgetH = 0 then 600 else s.widgetH

/-- MapWidget.load_map (map_widget.py lines 203-266): skip when a load is
already in progress; otherwise set the loading flag, start a BasemapLoader
for the current extent when the basemap is enabled, start a MapTileLoader
for the current extent, and mark the map as loaded. -/
def load_map (s : MapWidgetState) : MapWidgetState × List Eff :=
  if s.loading then (s, [])
  else
    ({ s with loading := true, map_loaded := true },
     (if s.show_basemap then
        [Eff.startBasemapLoader s.extent (loadSizeW s) (loadSizeH s)]
      else []) ++
     [Eff.startTileLoader s.base_url s.extent (loadSizeW s) (loadSizeH s)
        s.raster_function])

/-- MapWidget.mouseMoveEvent (map_widget.py lines 436-470): while selecting,
move the selection endpoint and emit the live bbox; while panning, translate
the extent by the screen delta converted to world units, clear the
selection, and reload the map. -/
def mouseMoveEvent (s : MapWidgetState) (pos : ℤ × ℤ) :
    MapWidgetState × List Eff :=
  if s.is_selecting then
    let s1 := { s with selection_end := some pos }
    (s1, match get_selection_bbox s1 with
         | some bb => [Eff.selectionChanged bb.xmin bb.ymin bb.xmax bb.ymax]
         | none => [])
  else if s.is_panning then
    match s.pan_start with
    | none => (s, [])
    | some ps =>
      let r := centeredRect s.current_pixmap.width s.current_pixmap.height
        s.widgetW s.widgetH
      if r.width = 0 ∧ r.height = 0 then (s, [])
      else
        let rel_delta_x : ℚ :=
          -(((pos.1 - ps.1 : ℤ) : ℚ)) / (r.width : ℚ) *
            (s.extent.xmax - s.extent.xmin)
        let rel_delta_y : ℚ :=
          ((pos.2 - ps.2 : ℤ) : ℚ) / (r.height : ℚ) *
            (s.extent.ymax - s.extent.ymin)
        let s1 := { s with
          extent := { xmin := s.extent.xmin + rel_delta_x,
                      ymin := s.extent.ymin + rel_delta_y,
                      xmax := s.extent.xmax + rel_delta_x,
                      ymax := s.extent.ymax + rel_delta_y },
          pan_start := some pos }
        let s2 := (clear_selection s1).1
        ((load_map s2).1, (clear_selection s1).2 ++ (load_map s2).2)
  else (s, [])

/-- Mouse buttons relevant to the widget. -/
inductive MouseButton where
  | left
  | middle
  | right
deriving DecidableEq, Repr

/-- MapWidget.mouseReleaseEvent (map_widget.py lines 472-494): on a left
release during a selection, finalize the endpoint, stop selecting, store and
emit the normalized world bbox when both endpoints map to the world, and
clear the pending endpoints; otherwise stop panning. -/
def mouseReleaseEvent (s : MapWidgetState) (button : MouseButton)
    (pos : ℤ × ℤ) : MapWidgetState × List Eff :=
  match button with
  | .left =>
    if s.is_selecting then
      let s1 := { s with selection_end := some pos, is_selecting := false }
      match get_selection_bbox s1 with
      | some bb =>
        ({ s1 with selected_bbox_world := some bb,
                   selection_start := none, selection_end := none },
         [Eff.selectionChanged bb.xmin bb.ymin bb.xmax bb.ymax,
          Eff.selectionCompleted bb.xmin bb.ymin bb.xmax bb.ymax])
      | none =>
        ({ s1 with selection_start := none, selection_end := none }, [])
    else if s.is_panning then
      ({ s with is_panning := false, pan_start := none }, [])
    else (s, [])
  | .middle =>
    if s.is_panning then
      ({ s with is_panning := false, pan_start := none }, [])
    else (s, [])
  | .right => (s, [])

/-- MapWidget.wheelEvent (map_widget.py lines 496-528): zoom the extent about
the world position of the widget center by the factor 1.2 (modelled by the
exact rational 6/5), clear the selection, and reload the map. -/
def wheelEvent (s : MapWidgetState) (angleDeltaY : ℤ) :
    MapWidgetState × List Eff :=
  if s.current_pixmap.isNull then (s, [])
  else
    let widget_center : ℤ × ℤ := (((s.widgetW / 2 : Nat) : ℤ), ((s.widgetH / 2 : Nat) : ℤ))
    let world_pos : ℚ × ℚ :=
      match screen_to_world s widget_center with
      | some wp => wp
      | none => ((s.extent.xmin + s.extent.xmax) / 2,
                 (s.extent.ymin + s.extent.ymax) / 2)
    let zoom_factor : ℚ := if 0 < angleDeltaY then 6/5 else 5/6
    let width := (s.extent.xmax - s.extent.xmin) / zoom_factor
    let height := (s.extent.ymax - s.extent.ymin) / zoom_factor
    let s1 := { s with
      extent := { xmin := world_pos.1 - width / 2,
                  ymin := world_pos.2 - height / 2,
                  xmax := world_pos.1 + width / 2,
                  ymax := world_pos.2 + height / 2 } }
    let s2 := (clear_selection s1).1
    ((load_map s2).1, (clear_selection s1).2 ++ (load_map s2).2)

/-- MapWidget.on_tile_loaded (map_widget.py lines 292-337): on a null pixmap
the display state is left unchanged; otherwise the delivered pixmap replaces
current_pixmap (used directly when its size matches the widget, scaled to
fit when the widget has a positive size, as-is when the widget is unsized)
and the extent becomes exactly the delivered bounding box. -/
def on_tile_loaded (s : MapWidgetState) (pixmap : QPixmap)
    (xmin ymin xmax ymax : ℚ) : MapWidgetState :=
  if pixmap.isNull then s
  else
    let newPixmap :=
      if s.widgetW = pixmap.width ∧ s.widgetH = pixmap.height then pixmap
      else if 0 < s.widgetW ∧ 0 < s.widgetH then
        pixmap.scaledKeepAspect s.widgetW s.widgetH
      else pixmap
    { s with current_pixmap := newPixmap,
             extent := { xmin := xmin, ymin := ymin, xmax := xmax, ymax := ymax } }

/-- Configuration of a MapTileLoader thread (map_widget.py lines 56-65). -/
structure MapTileLoader where
  base_url : String
  bbox : Extent
  width : Nat
  height : Nat
  raster_function : String
deriving DecidableEq, Repr

/-- One emission of the tileLoaded signal: a pixmap and a bounding box. -/
structure TileSignal where
  pixmap : QPixmap
  xmin : ℚ
  ymin : ℚ
  xmax : ℚ
  ymax : ℚ
deriving DecidableEq, Repr

/-- MapTileLoader.run (map_widget.py lines 67-154): the whole body is one
try block ending in a single emit of the decoded pixmap with the requested
bbox; the except arm emits a single null pixmap with the same bbox. The
outcome argument abstracts the external HTTP request and image decoding:
ok carries the pixmap the try block would emit, error means some exception
was raised inside the try block before its final emit. -/
def MapTileLoader.run (L : MapTileLoader) (outcome : Except String QPixmap) :
    List TileSignal :=
  match outcome with
  | Except.ok pm =>
    [{ pixmap := pm, xmin := L.bbox.xmin, ymin := L.bbox.ymin,
       xmax := L.bbox.xmax, ymax := L.bbox.ymax }]
  | Except.error _ =>
    [{ pixmap := QPixmap.null, xmin := L.bbox.xmin, ymin := L.bbox.ymin,
       xmax := L.bbox.xmax, ymax := L.bbox.ymax }]

/-- MapWidget.world_bbox_to_screen_rect (map_widget.py lines 405-418): the
QRect spanned by the screen images of the top-left and bottom-right corners
of a world bbox (QRect of two points: width = br.x - tl.x + 1). -/
def world_bbox_to_screen_rect (s : MapWidgetState) (bbox : Extent) :
    Option QRectZ :=
  match world_to_screen s bbox.xmin bbox.ymax,
        world_to_screen s bbox.xmax bbox.ymin with
  | some tl, some br =>
    some { left := tl.1, top := tl.2,
           width := br.1 - tl.1 + 1, height := br.2 - tl.2 + 1 }
  | _, _ => none

/-- Drawing commands issued by paintEvent, in order. The drawHillshade
command is modelled from the spec sentence about a composited hillshade
raster layer so that the sentence can be compared with the source; the
source paint routine never issues it (hillshading reaches the widget only
pre-baked inside the bathymetry image rendered by the server-side raster
function). -/
inductive DrawOp where
  | drawBasemap (x y : ℤ) (pm : QPixmap)
  | fillBackground (r g b : Nat)
  | drawBathymetry (x y : ℤ) (pm : QPixmap) (opacity : ℚ)
  | drawHillshade (x y : ℤ) (pm : QPixmap) (opacity : ℚ)
  | fillPlaceholder (r g b : Nat)
  | drawStatusText (t : String)
  | drawSelectedBbox (left top width height : ℤ)
  | drawActiveSelection (left top width height : ℤ)
deriving DecidableEq, Repr

/-- Selection overlay commands of paintEvent (map_widget.py lines 583-601):
the persistent purple bbox when present and on screen, then the active red
rubber band (QRect of the two endpoints, normalized). -/
def selectionOverlayOps (s : MapWidgetState) : List DrawOp :=
  (match s.selected_bbox_world with
   | some bb =>
     match world_bbox_to_screen_rect s bb with
     | some r => [DrawOp.drawSelectedBbox r.left r.top r.width r.height]
     | none => []
   | none => []) ++
  (match s.selection_start, s.selection_end with
   | some a, some b =>
     [DrawOp.drawActiveSelection (min a.1 b.1) (min a.2 b.2)
        (max a.1 b.1 - min a.1 b.1 + 1) (max a.2 b.2 - min a.2 b.2 + 1)]
   | _, _ => [])

/-- MapWidget.paintEvent (map_widget.py lines 541-601): basemap (or plain
background) first, then the bathymetry pixmap with the current opacity (or
a placeholder when neither layer is available), then the selection
overlays. Centering offsets use the Python floor division of the source. -/
def paintEvent (s : MapWidgetState) : List DrawOp :=
  (if s.show_basemap && !s.basemap_pixmap.isNull then
     [DrawOp.drawBasemap
        (Int.fdiv ((s.widgetW : ℤ) - (s.basemap_pixmap.width : ℤ)) 2)
        (Int.fdiv ((s.widgetH : ℤ) - (s.basemap_pixmap.height : ℤ)) 2)
        s.basemap_pixmap]
   else [DrawOp.fillBackground 240 240 240]) ++
  (if !s.current_pixmap.isNull then
     [DrawOp.drawBathymetry
        (Int.fdiv ((s.widgetW : ℤ) - (s.current_pixmap.width : ℤ)) 2)
        (Int.fdiv ((s.widgetH : ℤ) - (s.current_pixmap.height : ℤ)) 2)
        s.current_pixmap s.bathymetry_opacity]
   else if !s.show_basemap then
     [DrawOp.fillPlaceholder 200 200 200,
      DrawOp.drawStatusText
        (if s.loader_running then "Loading map..." else "No map data available")]
   else []) ++
  selectionOverlayOps s

/-- Whether a drawing command is one of the selection overlays. -/
def DrawOp.isSelectionOverlay : DrawOp → Bool
  | .drawSelectedBbox _ _ _ _ => true
  | .drawActiveSelection _ _ _ _ => true
  | _ => false

/-- Whether a drawing command composites the hillshade raster layer. -/
def DrawOp.isHillshade : DrawOp → Bool
  | .drawHillshade _ _ _ _ => true
  | _ => false

/-- Whether a drawing command composites the bathymetry raster layer. -/
def DrawOp.isBathymetry : DrawOp → Bool
  | .drawBathymetry _ _ _ _ => true
  | _ => false

/-- Whether an effect starts a background fetch thread. -/
def Eff.isLoaderStart : Eff → Bool
  | .startBasemapLoader _ _ _ => true
  | .startTileLoader _ _ _ _ _ => true
  | _ => false

/-- Whether an effect starts a BasemapLoader thread. -/
def Eff.isBasemapStart : Eff → Bool
  | .startBasemapLoader _ _ _ => true
  | _ => false

/-- Whether an effect starts a MapTileLoader thread. -/
def Eff.isTileStart : Eff → Bool
  | .startTileLoader _ _ _ _ _ => true
  | _ => false

/-- The effect list contains a bathymetry tile fetch for the given url,
bbox and raster function (at some request size). -/
def startsTileFetch (effs : List Eff) (url : String) (bb : Extent)
    (rf : String) : Prop :=
  ∃ w h, Eff.startTileLoader url bb w h rf ∈ effs

/-- The effect list contains a basemap fetch for the given bbox. -/
def startsBasemapFetch (effs : List Eff) (bb : Extent) : Prop :=
  ∃ w h, Eff.startBasemapLoader bb w h ∈ effs

/-- One WebMercator coordinate text field of the main window: empty, holding
a parseable number, or holding text on which Python float() raises. -/
inductive FieldText where
  | empty
  | num (q : ℚ)
  | invalid
deriving DecidableEq, Repr

/-- Python truthiness of a text field (the empty string is falsy). -/
def FieldText.nonempty : FieldText → Bool
  | .empty => false
  | _ => true

/-- Python float() on the text of a field: the parsed value, or none when a
ValueError is raised (an empty field also raises, but the source only
converts fields already checked to be nonempty). -/
def FieldText.toFloat : FieldText → Option ℚ
  | .num q => some q
  | _ => none

/-- State of MainWindow (main.py, MainWindow.__init__ and init_ui): the
attributes the modelled methods read or write. -/
structure MainWindowState where
  base_url : String
  service_extent : Option Extent
  map_group_present : Bool
  map_group_has_layout : Bool
  map_widget : Option MapWidgetState
  basemap_checked : Bool
  hillshade_checked : Bool
  opacity_slider_value : Nat
  selected_bbox : Option Extent
  xmin_field : FieldText
  ymin_field : FieldText
  xmax_field : FieldText
  ymax_field : FieldText
  output_path : String
  output_crs : String
  cell_size : ℚ
deriving Repr

/-- The parameter names of MapWidget.__init__ after self (map_widget.py line
163); the method declares no **kwargs. -/
def mapWidgetInitParams : List String :=
  ["base_url", "initial_extent", "parent", "raster_function", "show_basemap"]

/-- The keyword arguments passed by MainWindow.init_map_widget to the
MapWidget constructor (main.py line 390), after 2 positional arguments. -/
def initCallKeywords : List String :=
  ["raster_function", "show_basemap", "show_hillshade"]

/-- Number of positional arguments in that constructor call after self. -/
def initCallPositionalCount : Nat := 2

/-- Python keyword binding for a call to a function without **kwargs: every
keyword must name a declared parameter that is not already bound
positionally, and no keyword may repeat; otherwise the call raises
TypeError. -/
def keywordCallBinds (params : List String) (npos : Nat)
    (keywords : List String) : Bool :=
  decide (npos ≤ params.length) &&
  keywords.all (fun k =>
    params.contains k &&
    decide (npos ≤ List.indexOf k params) &&
    decide (List.count k keywords = 1))

/-- The widget state MapWidget.__init__ would build (map_widget.py lines
163-186) were the constructor call to bind: attribute defaults from the
source, widget size pending layout. -/
def mkMapWidget (base_url : String) (initial_extent : Extent)
    (raster_function : String) (show_basemap : Bool) : MapWidgetState :=
  { base_url := base_url
    extent := initial_extent
    current_pixmap := QPixmap.null
    basemap_pixmap := QPixmap.null
    show_basemap := show_basemap
    bathymetry_opacity := 1
    selection_start := none
    selection_end := none
    is_selecting := false
    is_panning := false
    pan_start := none
    raster_function := raster_function
    map_loaded := false
    loading := false
    selected_bbox_world := none
    widgetW := 0
    widgetH := 0
    loader_running := false }

/-- Events observable from MainWindow.init_map_widget. -/
inductive InitEvent where
  | caughtTypeError
  | widgetCreated
deriving DecidableEq, Repr

/-- MainWindow.init_map_widget (main.py lines 333-408): after the guard
clauses, when no widget exists yet it calls the MapWidget constructor with
two positional arguments and the keywords raster_function, show_basemap and
show_hillshade; the call is attempted under a try whose except arm logs the
exception and sets map_widget to None. -/
def init_map_widget (s : MainWindowState) : MainWindowState × List InitEvent :=
  match s.service_extent with
  | none => (s, [])
  | some ext =>
    if !s.map_group_present then (s, [])
    else if !s.map_group_has_layout then (s, [])
    else
      match s.map_widget with
      | some _ => (s, [])
      | none =>
        if keywordCallBinds mapWidgetInitParams initCallPositionalCount
            initCallKeywords then
          let w := { mkMapWidget s.base_url ext "DAR - StdDev - BlueGreen"
                       s.basemap_checked with
                     bathymetry_opacity := (s.opacity_slider_value : ℚ) / 100 }
          ({ s with map_widget := some w }, [InitEvent.widgetCreated])
        else
          ({ s with map_widget := none }, [InitEvent.caughtTypeError])

/-- Outcome of MainWindow.start_download: one of the early-return warning
dialogs, or the dispatch of a BathymetryDownloader thread with the shown
arguments. -/
inductive DownloadAction where
  | warnInvalidInput
  | warnNoSelection
  | warnNoOutputPath
  | warnTooLarge (pixels_width pixels_height : ℤ)
  | dispatch (url : String) (bbox : Extent) (output_path : String)
      (output_crs : String) (cell_size : ℚ) (max_size : ℤ)
deriving DecidableEq, Repr

/-- MainWindow.start_download (main.py lines 637-721): resolve the bbox from
the stored selection, else the map widget selection, else the manual entry
fields; warn and return when there is no bbox or no output path; warn and
return when a pixel dimension int((extent)/cell_size) exceeds 14000;
otherwise start the downloader thread. -/
def start_download (s : MainWindowState) : DownloadAction :=
  let bboxRes : Except Unit (Option Extent) :=
    match s.selected_bbox with
    | some bb => Except.ok (some bb)
    | none =>
      match s.map_widget with
      | some w => Except.ok (get_selection_bbox w)
      | none =>
        if s.xmin_field.nonempty && s.ymin_field.nonempty &&
           s.xmax_field.nonempty && s.ymax_field.nonempty then
          match s.xmin_field.toFloat, s.ymin_field.toFloat,
                s.xmax_field.toFloat, s.ymax_field.toFloat with
          | some a, some b, some c, some d =>
            Except.ok (some { xmin := a, ymin := b, xmax := c, ymax := d })
          | _, _, _, _ => Except.error ()
        else Except.ok none
  match bboxRes with
  | Except.error _ => DownloadAction.warnInvalidInput
  | Except.ok none => DownloadAction.warnNoSelection
  | Except.ok (some bbox) =>
    if s.output_path = "" then DownloadAction.warnNoOutputPath
    else
      let pixels_width := pyInt ((bbox.xmax - bbox.xmin) / s.cell_size)
      let pixels_height := pyInt ((bbox.ymax - bbox.ymin) / s.cell_size)
      if 14000 < pixels_width ∨ 14000 < pixels_height then
        DownloadAction.warnTooLarge pixels_width pixels_height
      else
        DownloadAction.dispatch s.base_url bbox s.output_path s.output_crs
          s.cell_size 14000

/-- MainWindow.zoom_to_selection (main.py lines 565-624) acting on the map
widget: store the selected bbox for persistent display, pad the selection
by 5 percent (the float 0.05 modelled by the exact rational 1/20), expand to
the widget aspect ratio when the widget is sized, set the extent, and reload
the map. -/
def zoom_to_selection (w : MapWidgetState) (bb : Extent) :
    MapWidgetState × List Eff :=
  let w1 := { w with selected_bbox_world := some bb }
  let selection_width := bb.xmax - bb.xmin
  let selection_height := bb.ymax - bb.ymin
  let padding_x := selection_width * (1/20)
  let padding_y := selection_height * (1/20)
  let padded_xmin := bb.xmin - padding_x
  let padded_ymin := bb.ymin - padding_y
  let padded_xmax := bb.xmax + padding_x
  let padded_ymax := bb.ymax + padding_y
  let padded_width := padded_xmax - padded_xmin
  let padded_height := padded_ymax - padded_ymin
  let new_extent :=
    if 0 < w.widgetW ∧ 0 < w.widgetH then
      let widget_aspect : ℚ := (w.widgetW : ℚ) / (w.widgetH : ℚ)
      let padded_aspect := padded_width / padded_height
      let center_x := (padded_xmin + padded_xmax) / 2
      let center_y := (padded_ymin + padded_ymax) / 2
      let nw := if widget_aspect < padded_aspect then padded_width
                else padded_height * widget_aspect
      let nh := if widget_aspect < padded_aspect then padded_width / widget_aspect
                else padded_height
      { xmin := center_x - nw / 2, ymin := center_y - nh / 2,
        xmax := center_x + nw / 2, ymax := center_y + nh / 2 : Extent }
    else
      { xmin := padded_xmin, ymin := padded_ymin,
        xmax := padded_xmax, ymax := padded_ymax : Extent }
  let w2 := { w1 with extent := new_extent }
  load_map w2

/-- A concrete widget state: a 100 x 50 bathymetry pixmap centered in an
800 x 600 widget showing the extent (0, 0, 200, 100). -/
def demoWidget : MapWidgetState :=
  { base_url := "https://gis.ccom.unh.edu/server/rest/services/WGOM_LI_SNE/WGOM_LI_SNE_BTY_4m_20231005_WMAS_IS/ImageServer"
    extent := { xmin := 0, ymin := 0, xmax := 200, ymax := 100 }
    current_pixmap := QPixmap.image 100 50 7
    basemap_pixmap := QPixmap.null
    show_basemap := true
    bathymetry_opacity := 3/5
    selection_start := none
    selection_end := none
    is_selecting := false
    is_panning := false
    pan_start := none
    raster_function := "DAR - StdDev - BlueGreen"
    map_loaded := true
    loading := false
    selected_bbox_world := none
    widgetW := 800
    widgetH := 600
    loader_running := false }

/-- The demo widget in the middle of a pan drag while a load is already in
progress (the loading flag is set). -/
def demoPanBusy : MapWidgetState :=
  { demoWidget with is_panning := true, pan_start := some (0, 0),
                    loading := true }

/-- The demo widget in the middle of a pan drag with no load in progress. -/
def demoPanFree : MapWidgetState :=
  { demoWidget with is_panning := true, pan_start := some (0, 0) }

/-- The demo widget mid-pan with no load in progress and the basemap layer
disabled. -/
def demoPanNoBasemap : MapWidgetState :=
  { demoWidget with is_panning := true, pan_start := some (0, 0),
                    show_basemap := false }

/-- The demo widget mid-selection: drag started at (360, 280). -/
def demoSelecting : MapWidgetState :=
  { demoWidget with is_selecting := true,
                    selection_start := some (360, 280),
                    selection_end := some (360, 280) }

/-- The demo widget with both raster pixmaps present, about to repaint. -/
def paintDemo : MapWidgetState :=
  { demoWidget with basemap_pixmap := QPixmap.image 800 600 3,
                    current_pixmap := QPixmap.image 800 600 1 }

/-- A concrete main-window state right after init_ui: service extent at its
default, no widget yet, controls at their defaults. -/
def demoMain : MainWindowState :=
  { base_url := "https://gis.ccom.unh.edu/server/rest/services/WGOM_LI_SNE/WGOM_LI_SNE_BTY_4m_20231005_WMAS_IS/ImageServer"
    service_extent := some { xmin := -8254538.5, ymin := 4898559.25,
                             xmax := -7411670.5, ymax := 5636075.25 }
    map_group_present := true
    map_group_has_layout := true
    map_widget := none
    basemap_checked := true
    hillshade_checked := true
    opacity_slider_value := 60
    selected_bbox := none
    xmin_field := FieldText.empty
    ymin_field := FieldText.empty
    xmax_field := FieldText.empty
    ymax_field := FieldText.empty
    output_path := ""
    output_crs := "EPSG:3857"
    cell_size := 4 }

/-- The demo main window with a stored selection of 5600 m x 4000 m, an
output path, and the default 4 m cell size. -/
def demoMainReady : MainWindowState :=
  { demoMain with selected_bbox := some { xmin := 0, ymin := 0,
                                          xmax := 5600, ymax := 4000 },
                  output_path := "/tmp/out.tif" }

/-- Python int() of an integer-valued rational is that integer. -/
theorem pyInt_intCast (n : ℤ) : pyInt (n : ℚ) = n := by
  unfold pyInt
  rcases lt_or_le (n : ℚ) 0 with h | h
  · rw [if_pos h, Int.ceil_intCast]
  · rw [if_neg (not_lt.mpr h), Int.floor_intCast]

/-- The coordinate conversions read only the coordView data: states that
agree on it convert screen points identically. -/
theorem screen_to_world_congr (s t : MapWidgetState) (p : ℤ × ℤ)
    (h : coordView s = coordView t) :
    screen_to_world s p = screen_to_world t p := by
  obtain ⟨h1, h2, h3, h4, h5, h6⟩ :
      s.extent = t.extent ∧ s.current_pixmap.isNull = t.current_pixmap.isNull ∧
      s.current_pixmap.width = t.current_pixmap.width ∧
      s.current_pixmap.height = t.current_pixmap.height ∧
      s.widgetW = t.widgetW ∧ s.widgetH = t.widgetH := by
    simpa [coordView, Prod.ext_iff] using h
  unfold screen_to_world
  rw [h1, h2, h3, h4, h5, h6]

/-- The coordinate conversions read only the coordView data: states that
agree on it convert world points identically. -/
theorem world_to_screen_congr (s t : MapWidgetState) (wx wy : ℚ)
    (h : coordView s = coordView t) :
    world_to_screen s wx wy = world_to_screen t wx wy := by
  obtain ⟨h1, h2, h3, h4, h5, h6⟩ :
      s.extent = t.extent ∧ s.current_pixmap.isNull = t.current_pixmap.isNull ∧
      s.current_pixmap.width = t.current_pixmap.width ∧
      s.current_pixmap.height = t.current_pixmap.height ∧
      s.widgetW = t.widgetW ∧ s.widgetH = t.widgetH := by
    simpa [coordView, Prod.ext_iff] using h
  unfold world_to_screen
  rw [h1, h2, h3, h4, h5, h6]

/-- The method form of screen_to_world returns the receiver unchanged
together with the value of the pure function. -/
theorem screenToWorldMethod_eq (s : MapWidgetState) (p : ℤ × ℤ) :
    screenToWorldMethod s p = (s, screen_to_world s p) := by
  unfold screenToWorldMethod screen_to_world
  cases hc : s.current_pixmap.isNull <;> simp only [Bool.false_eq_true, if_false, if_true]
  split <;> rfl

/-- The method form of world_to_screen returns the receiver unchanged
together with the value of the pure function. -/
theorem worldToScreenMethod_eq (s : MapWidgetState) (wx wy : ℚ) :
    worldToScreenMethod s wx wy = (s, world_to_screen s wx wy) := by
  unfold worldToScreenMethod world_to_screen
  split <;> rfl

/-- Claim C10: screen_to_world and world_to_screen are pure. As method
calls they leave every widget attribute unchanged, returning exactly the
receiver state, and their results are determined solely by the input point,
the extent, the current pixmap rectangle, and the widget rectangle: any two
states agreeing on that view produce the same results. -/
theorem coord_mapper_pure (s t : MapWidgetState) (p : ℤ × ℤ) (wx wy : ℚ)
    (h : coordView s = coordView t) :
    (screenToWorldMethod s p).1 = s ∧ (worldToScreenMethod s wx wy).1 = s ∧
    (screenToWorldMethod s p).2 = screen_to_world s p ∧
    (worldToScreenMethod s wx wy).2 = world_to_screen s wx wy ∧
    screen_to_world s p = screen_to_world t p ∧
    world_to_screen s wx wy = world_to_screen t wx wy :=
  ⟨by rw [screenToWorldMethod_eq], by rw [worldToScreenMethod_eq],
   by rw [screenToWorldMethod_eq], by rw [worldToScreenMethod_eq],
   screen_to_world_congr s t p h, world_to_screen_congr s t wx wy h⟩

/-- Claim C10 witness at the concrete demo widget (compared with itself). -/
theorem coord_mapper_pure_witness :
    (screenToWorldMethod demoWidget (400, 300)).1 = demoWidget ∧
    (worldToScreenMethod demoWidget 100 50).1 = demoWidget :=
  ⟨(coord_mapper_pure demoWidget demoWidget (400, 300) 100 50 rfl).1,
   (coord_mapper_pure demoWidget demoWidget (400, 300) 100 50 rfl).2.1⟩

/-- Claim C7: when any exception is raised inside the try block of
MapTileLoader.run, the loader performs no retry and emits exactly one
tileLoaded signal, carrying the null pixmap and the originally requested
bounding box; and on_tile_loaded applied to a null pixmap returns the state
unchanged, whatever bounding box accompanies it. -/
theorem tile_loader_error_single_emit (L : MapTileLoader) (msg : String)
    (s : MapWidgetState) (xmin ymin xmax ymax : ℚ) :
    MapTileLoader.run L (Except.error msg) =
      [{ pixmap := QPixmap.null, xmin := L.bbox.xmin, ymin := L.bbox.ymin,
         xmax := L.bbox.xmax, ymax := L.bbox.ymax }] ∧
    (MapTileLoader.run L (Except.error msg)).length = 1 ∧
    on_tile_loaded s QPixmap.null xmin ymin xmax ymax = s :=
  ⟨rfl, rfl, rfl⟩

/-- Claim C6: a delivered non-null pixmap replaces current_pixmap (directly
when its size matches the widget, scaled to fit when it differs and the
widget is sized) and the extent becomes exactly the delivered bounding box;
the result does not depend on the previously displayed pixmap or extent
(any two states with the same widget size agree on the new display). -/
theorem on_tile_loaded_replaces (s t : MapWidgetState) (pm : QPixmap)
    (xmin ymin xmax ymax : ℚ) (hpm : pm.isNull = false)
    (hW : s.widgetW = t.widgetW) (hH : s.widgetH = t.widgetH) :
    (on_tile_loaded s pm xmin ymin xmax ymax).extent =
      { xmin := xmin, ymin := ymin, xmax := xmax, ymax := ymax } ∧
    (on_tile_loaded s pm xmin ymin xmax ymax).current_pixmap =
      (on_tile_loaded t pm xmin ymin xmax ymax).current_pixmap ∧
    (s.widgetW = pm.width ∧ s.widgetH = pm.height →
      (on_tile_loaded s pm xmin ymin xmax ymax).current_pixmap = pm) ∧
    (¬(s.widgetW = pm.width ∧ s.widgetH = pm.height) →
      0 < s.widgetW → 0 < s.widgetH →
      (on_tile_loaded s pm xmin ymin xmax ymax).current_pixmap =
        pm.scaledKeepAspect s.widgetW s.widgetH) := by
  unfold on_tile_loaded
  rw [hpm]
  refine ⟨by simp, ?_, ?_, ?_⟩
  · rw [hW, hH]; simp
  · intro hmatch; simp [hmatch]
  · intro hdiff hw hh
    simp only [Bool.false_eq_true, if_false]
    rw [if_neg hdiff, if_pos ⟨hw, hh⟩]

/-- Claim C6 witness: a 400 x 300 tile delivered to the 800 x 600 demo
widget is scaled and the extent is replaced by the delivered bbox. -/
theorem on_tile_loaded_replaces_witness :
    (on_tile_loaded demoWidget (QPixmap.image 400 300 9) 1 2 3 4).extent =
      { xmin := 1, ymin := 2, xmax := 3, ymax := 4 } ∧
    (on_tile_loaded demoWidget (QPixmap.image 400 300 9) 1 2 3 4).current_pixmap =
      (QPixmap.image 400 300 9).scaledKeepAspect 800 600 :=
  ⟨(on_tile_loaded_replaces demoWidget demoWidget (QPixmap.image 400 300 9)
      1 2 3 4 rfl rfl rfl).1,
   (on_tile_loaded_replaces demoWidget demoWidget (QPixmap.image 400 300 9)
      1 2 3 4 rfl rfl rfl).2.2.2 (by decide) (by decide) (by decide)⟩

/-- Key affine identity for the x axis of the round trip: mapping a screen
offset to world coordinates and back is the identity, including the final
Python int() truncation, because the value is exactly the original integer. -/
theorem pyInt_affine_round_trip_x (L PW lo hi : ℚ) (v : ℤ)
    (hPW : PW ≠ 0) (hX : hi - lo ≠ 0) :
    pyInt (L + ((lo + ((v : ℚ) - L) / PW * (hi - lo)) - lo) / (hi - lo) * PW)
      = v := by
  have h : L + ((lo + ((v : ℚ) - L) / PW * (hi - lo)) - lo) / (hi - lo) * PW
      = ((v : ℤ) : ℚ) := by
    field_simp
    ring
  rw [h, pyInt_intCast]

/-- Key affine identity for the inverted y axis of the round trip. -/
theorem pyInt_affine_round_trip_y (T PH lo hi : ℚ) (v : ℤ)
    (hPH : PH ≠ 0) (hY : hi - lo ≠ 0) :
    pyInt (T + (hi - (hi - ((v : ℚ) - T) / PH * (hi - lo))) / (hi - lo) * PH)
      = v := by
  have h : T + (hi - (hi - ((v : ℚ) - T) / PH * (hi - lo))) / (hi - lo) * PH
      = ((v : ℤ) : ℚ) := by
    field_simp
    ring
  rw [h, pyInt_intCast]

/-- Claim C4: for every screen point inside the pixmap rectangle centered in
the widget, with a non-null current pixmap of positive pixel size and a
non-degenerate extent, world_to_screen applied to the result of
screen_to_world returns exactly the original point under exact rational
arithmetic. -/
theorem screen_world_round_trip (s : MapWidgetState) (p : ℤ × ℤ) (w : ℚ × ℚ)
    (hnull : s.current_pixmap.isNull = false)
    (hw : 0 < s.current_pixmap.width) (hh : 0 < s.current_pixmap.height)
    (hx : s.extent.xmin < s.extent.xmax) (hy : s.extent.ymin < s.extent.ymax)
    (hs2w : screen_to_world s p = some w) :
    world_to_screen s w.1 w.2 = some p := by
  obtain ⟨p1, p2⟩ := p
  have hX : s.extent.xmax - s.extent.xmin ≠ 0 := sub_ne_zero.mpr (ne_of_gt hx)
  have hY : s.extent.ymax - s.extent.ymin ≠ 0 := sub_ne_zero.mpr (ne_of_gt hy)
  have hPW : (((centeredRect s.current_pixmap.width s.current_pixmap.height
      s.widgetW s.widgetH).width : ℤ) : ℚ) ≠ 0 := by
    simp only [centeredRect]
    exact_mod_cast hw.ne'
  have hPH : (((centeredRect s.current_pixmap.width s.current_pixmap.height
      s.widgetW s.widgetH).height : ℤ) : ℚ) ≠ 0 := by
    simp only [centeredRect]
    exact_mod_cast hh.ne'
  unfold screen_to_world at hs2w
  rw [hnull] at hs2w
  simp only [Bool.false_eq_true, if_false] at hs2w
  by_cases hin : rectContains (centeredRect s.current_pixmap.width
      s.current_pixmap.height s.widgetW s.widgetH) (p1, p2) = true
  · rw [if_pos hin, Option.some.injEq] at hs2w
    unfold world_to_screen
    rw [hnull]
    simp only [Bool.false_eq_true, if_false, Option.some.injEq]
    rw [← hs2w]
    exact Prod.ext
      (pyInt_affine_round_trip_x _ _ _ _ p1 hPW hX)
      (pyInt_affine_round_trip_y _ _ _ _ p2 hPH hY)
  · rw [if_neg hin] at hs2w
    exact absurd hs2w (by simp)

/-- Claim C4 witness: the point (400, 300) of the demo widget maps to world
(100, 50) and back to (400, 300). -/
theorem screen_world_round_trip_witness :
    world_to_screen demoWidget 100 50 = some (400, 300) :=
  screen_world_round_trip demoWidget (400, 300) (100, 50) rfl
    (by decide) (by decide)
    (by norm_num [demoWidget]) (by norm_num [demoWidget])
    (by
      have e1 : Int.tdiv 799 2 = 399 := by decide
      have e2 : Int.tdiv 99 2 = 49 := by decide
      have e3 : Int.tdiv 599 2 = 299 := by decide
      have e4 : Int.tdiv 49 2 = 24 := by decide
      norm_num [screen_to_world, demoWidget, centeredRect, rectContains,
        qtHalf, QPixmap.isNull, QPixmap.width, QPixmap.height, e1, e2, e3, e4])

/-- load_map never changes the extent. -/
theorem load_map_extent (s : MapWidgetState) : (load_map s).1.extent = s.extent := by
  unfold load_map
  split <;> rfl

/-- clear_selection never changes the extent. -/
theorem clear_selection_extent (s : MapWidgetState) :
    (clear_selection s).1.extent = s.extent := rfl

/-- Claim C9: a pan-drag movement with a non-null pixmap rectangle shifts
xmin and xmax by the common delta -dx / pixmap_width * world_width and ymin
and ymax by the common delta dy / pixmap_height * world_height, so the
width and the height of the extent are unchanged by panning, under exact
rational arithmetic. -/
theorem pan_translates_extent (s : MapWidgetState) (ps pos : ℤ × ℤ)
    (hsel : s.is_selecting = false) (hpan : s.is_panning = true)
    (hps : s.pan_start = some ps)
    (hrect : ¬(s.current_pixmap.width = 0 ∧ s.current_pixmap.height = 0)) :
    (mouseMoveEvent s pos).1.extent.xmin = s.extent.xmin +
      -(((pos.1 - ps.1 : ℤ) : ℚ)) / (s.current_pixmap.width : ℚ) *
        (s.extent.xmax - s.extent.xmin) ∧
    (mouseMoveEvent s pos).1.extent.xmax = s.extent.xmax +
      -(((pos.1 - ps.1 : ℤ) : ℚ)) / (s.current_pixmap.width : ℚ) *
        (s.extent.xmax - s.extent.xmin) ∧
    (mouseMoveEvent s pos).1.extent.ymin = s.extent.ymin +
      ((pos.2 - ps.2 : ℤ) : ℚ) / (s.current_pixmap.height : ℚ) *
        (s.extent.ymax - s.extent.ymin) ∧
    (mouseMoveEvent s pos).1.extent.ymax = s.extent.ymax +
      ((pos.2 - ps.2 : ℤ) : ℚ) / (s.current_pixmap.height : ℚ) *
        (s.extent.ymax - s.extent.ymin) ∧
    (mouseMoveEvent s pos).1.extent.xmax - (mouseMoveEvent s pos).1.extent.xmin
      = s.extent.xmax - s.extent.xmin ∧
    (mouseMoveEvent s pos).1.extent.ymax - (mouseMoveEvent s pos).1.extent.ymin
      = s.extent.ymax - s.extent.ymin := by
  have hz : ¬(((s.current_pixmap.width : ℤ) = 0) ∧
      ((s.current_pixmap.height : ℤ) = 0)) := by
    exact_mod_cast hrect
  have hev : (mouseMoveEvent s pos).1.extent =
      { xmin := s.extent.xmin +
          -(((pos.1 - ps.1 : ℤ) : ℚ)) / ((s.current_pixmap.width : ℤ) : ℚ) *
            (s.extent.xmax - s.extent.xmin),
        ymin := s.extent.ymin +
          ((pos.2 - ps.2 : ℤ) : ℚ) / ((s.current_pixmap.height : ℤ) : ℚ) *
            (s.extent.ymax - s.extent.ymin),
        xmax := s.extent.xmax +
          -(((pos.1 - ps.1 : ℤ) : ℚ)) / ((s.current_pixmap.width : ℤ) : ℚ) *
            (s.extent.xmax - s.extent.xmin),
        ymax := s.extent.ymax +
          ((pos.2 - ps.2 : ℤ) : ℚ) / ((s.current_pixmap.height : ℤ) : ℚ) *
            (s.extent.ymax - s.extent.ymin) } := by
    unfold mouseMoveEvent
    rw [hsel, hpan, hps]
    simp only [Bool.false_eq_true, if_false, if_true, centeredRect]
    rw [if_neg hz]
    rw [load_map_extent, clear_selection_extent]
  rw [hev]
  push_cast
  refine ⟨rfl, rfl, rfl, rfl, by ring, by ring⟩

/-- Claim C9 witness: panning the demo widget by (10, 10) pixels from
(0, 0) shifts the extent without changing its width or height. -/
theorem pan_translates_extent_witness :
    (mouseMoveEvent demoPanFree (10, 10)).1.extent.xmax -
      (mouseMoveEvent demoPanFree (10, 10)).1.extent.xmin =
      demoPanFree.extent.xmax - demoPanFree.extent.xmin ∧
    (mouseMoveEvent demoPanFree (10, 10)).1.extent.ymax -
      (mouseMoveEvent demoPanFree (10, 10)).1.extent.ymin =
      demoPanFree.extent.ymax - demoPanFree.extent.ymin :=
  ⟨(pan_translates_extent demoPanFree (0, 0) (10, 10) rfl rfl rfl
      (by decide)).2.2.2.2.1,
   (pan_translates_extent demoPanFree (0, 0) (10, 10) rfl rfl rfl
      (by decide)).2.2.2.2.2⟩

/-- Evaluation lemma for get_selection_bbox when both endpoints are present
and both map into the world. -/
theorem get_selection_bbox_eval (s : MapWidgetState) (a b : ℤ × ℤ)
    (w1 w2 : ℚ × ℚ) (ha : s.selection_start = some a)
    (hb : s.selection_end = some b) (hw1 : screen_to_world s a = some w1)
    (hw2 : screen_to_world s b = some w2) :
    get_selection_bbox s =
      some { xmin := min w1.1 w2.1, ymin := min w1.2 w2.2,
             xmax := max w1.1 w2.1, ymax := max w1.2 w2.2 } := by
  unfold get_selection_bbox
  rw [ha, hb]
  simp only []
  rw [hw1, hw2]

/-- Claim C8: the widget stores at most one pending selection (the optional
pixel-space pair selection_start, selection_end) and at most one completed
selection (the optional world-space selected_bbox_world); a left-button
release during an active selection whose endpoints both map to world
coordinates stops selecting, clears both pending endpoints, stores the
normalized world bbox of the drag (min and max on each axis, whatever the
drag direction), and emits it on selectionChanged and selectionCompleted. -/
theorem release_finalizes_selection (s : MapWidgetState) (a pos : ℤ × ℤ)
    (w1 w2 : ℚ × ℚ)
    (hsel : s.is_selecting = true) (hstart : s.selection_start = some a)
    (hw1 : screen_to_world s a = some w1)
    (hw2 : screen_to_world s pos = some w2) :
    (mouseReleaseEvent s MouseButton.left pos).1.is_selecting = false ∧
    (mouseReleaseEvent s MouseButton.left pos).1.selection_start = none ∧
    (mouseReleaseEvent s MouseButton.left pos).1.selection_end = none ∧
    (mouseReleaseEvent s MouseButton.left pos).1.selected_bbox_world =
      some { xmin := min w1.1 w2.1, ymin := min w1.2 w2.2,
             xmax := max w1.1 w2.1, ymax := max w1.2 w2.2 } ∧
    min w1.1 w2.1 ≤ max w1.1 w2.1 ∧ min w1.2 w2.2 ≤ max w1.2 w2.2 ∧
    (mouseReleaseEvent s MouseButton.left pos).2 =
      [Eff.selectionChanged (min w1.1 w2.1) (min w1.2 w2.2)
         (max w1.1 w2.1) (max w1.2 w2.2),
       Eff.selectionCompleted (min w1.1 w2.1) (min w1.2 w2.2)
         (max w1.1 w2.1) (max w1.2 w2.2)] := by
  have hcv : coordView
      { s with selection_end := some pos, is_selecting := false } =
      coordView s := rfl
  have e1 : screen_to_world
      { s with selection_end := some pos, is_selecting := false } a =
      some w1 := by
    rw [screen_to_world_congr _ s a hcv]; exact hw1
  have e2 : screen_to_world
      { s with selection_end := some pos, is_selecting := false } pos =
      some w2 := by
    rw [screen_to_world_congr _ s pos hcv]; exact hw2
  have hbb : get_selection_bbox
      { s with selection_end := some pos, is_selecting := false } =
      some { xmin := min w1.1 w2.1, ymin := min w1.2 w2.2,
             xmax := max w1.1 w2.1, ymax := max w1.2 w2.2 } :=
    get_selection_bbox_eval _ a pos w1 w2 hstart rfl e1 e2
  simp only [mouseReleaseEvent, hsel, if_true]
  rw [hbb]
  simp [min_le_max]

/-- Claim C8 witness: releasing at (400, 300) a selection started at
(360, 280) on the demo widget stores and clears as claimed, with the
normalized bbox (20, 50, 100, 90). -/
theorem release_finalizes_selection_witness :
    (mouseReleaseEvent demoSelecting MouseButton.left (400, 300)).1.is_selecting
      = false ∧
    (mouseReleaseEvent demoSelecting MouseButton.left (400, 300)).1.selected_bbox_world
      = some { xmin := 20, ymin := 50, xmax := 100, ymax := 90 } := by
  have e1 : Int.tdiv 799 2 = 399 := by decide
  have e2 : Int.tdiv 99 2 = 49 := by decide
  have e3 : Int.tdiv 599 2 = 299 := by decide
  have e4 : Int.tdiv 49 2 = 24 := by decide
  have h := release_finalizes_selection demoSelecting (360, 280) (400, 300)
    (20, 90) (100, 50) rfl rfl
    (by norm_num [screen_to_world, demoSelecting, demoWidget, centeredRect,
          rectContains, qtHalf, QPixmap.isNull, QPixmap.width, QPixmap.height,
          e1, e2, e3, e4])
    (by norm_num [screen_to_world, demoSelecting, demoWidget, centeredRect,
          rectContains, qtHalf, QPixmap.isNull, QPixmap.width, QPixmap.height,
          e1, e2, e3, e4])
  refine ⟨h.1, ?_⟩
  rw [h.2.2.2.1]
  norm_num

/-- A tile fetch found in a suffix is found in the whole effect list. -/
theorem startsTileFetch_append_left (xs ys : List Eff) (url : String)
    (bb : Extent) (rf : String) (h : startsTileFetch ys url bb rf) :
    startsTileFetch (xs ++ ys) url bb rf := by
  obtain ⟨w, h1, hm⟩ := h
  exact ⟨w, h1, List.mem_append_right xs hm⟩

/-- A basemap fetch found in a suffix is found in the whole effect list. -/
theorem startsBasemapFetch_append_left (xs ys : List Eff) (bb : Extent)
    (h : startsBasemapFetch ys bb) : startsBasemapFetch (xs ++ ys) bb := by
  obtain ⟨w, h1, hm⟩ := h
  exact ⟨w, h1, List.mem_append_right xs hm⟩

/-- When no load is in progress, load_map starts a bathymetry tile fetch for
the current extent, and a basemap fetch too when the basemap is shown. -/
theorem load_map_fetches (s : MapWidgetState) (h : s.loading = false) :
    startsTileFetch (load_map s).2 s.base_url (load_map s).1.extent
      s.raster_function ∧
    (s.show_basemap = true →
      startsBasemapFetch (load_map s).2 (load_map s).1.extent) := by
  constructor
  · exact ⟨loadSizeW s, loadSizeH s, by simp [load_map, h]⟩
  · intro hb
    exact ⟨loadSizeW s, loadSizeH s, by simp [load_map, h, hb]⟩

/-- When the basemap layer is disabled, load_map starts no BasemapLoader
thread at all. -/
theorem load_map_no_basemap (s : MapWidgetState) (h : s.show_basemap = false) :
    (load_map s).2.filter Eff.isBasemapStart = [] := by
  unfold load_map
  split
  · rfl
  · simp [h, Eff.isBasemapStart]

/-- Claim C5 (amended): a pan movement, a wheel zoom, and a completed
selection each call load_map on the extent current at that moment; when no
load is already in progress, load_map starts a fresh bathymetry tile fetch
for that extent, together with a basemap fetch exactly when the basemap
layer is enabled (none is started when it is disabled); when a load is in
progress, load_map returns at once and starts nothing. -/
theorem fetch_dispatch_on_events (s : MapWidgetState) (ps pos : ℤ × ℤ)
    (dy : ℤ) (bb : Extent) :
    (s.is_selecting = false → s.is_panning = true → s.pan_start = some ps →
      ¬(s.current_pixmap.width = 0 ∧ s.current_pixmap.height = 0) →
      s.loading = false →
      startsTileFetch (mouseMoveEvent s pos).2 s.base_url
        (mouseMoveEvent s pos).1.extent s.raster_function ∧
      (s.show_basemap = true →
        startsBasemapFetch (mouseMoveEvent s pos).2
          (mouseMoveEvent s pos).1.extent) ∧
      (s.show_basemap = false →
        (mouseMoveEvent s pos).2.filter Eff.isBasemapStart = [])) ∧
    (s.current_pixmap.isNull = false → s.loading = false →
      startsTileFetch (wheelEvent s dy).2 s.base_url
        (wheelEvent s dy).1.extent s.raster_function ∧
      (s.show_basemap = true →
        startsBasemapFetch (wheelEvent s dy).2 (wheelEvent s dy).1.extent) ∧
      (s.show_basemap = false →
        (wheelEvent s dy).2.filter Eff.isBasemapStart = [])) ∧
    (s.loading = false →
      startsTileFetch (zoom_to_selection s bb).2 s.base_url
        (zoom_to_selection s bb).1.extent s.raster_function ∧
      (s.show_basemap = true →
        startsBasemapFetch (zoom_to_selection s bb).2
          (zoom_to_selection s bb).1.extent) ∧
      (s.show_basemap = false →
        (zoom_to_selection s bb).2.filter Eff.isBasemapStart = [])) ∧
    (s.loading = true → (load_map s).2 = [] ∧ (load_map s).1 = s) := by
  refine ⟨?_, ?_, ?_, ?_⟩
  · intro hsel hpan hps hrect hload
    have hz : ¬(((s.current_pixmap.width : ℤ) = 0) ∧
        ((s.current_pixmap.height : ℤ) = 0)) := by exact_mod_cast hrect
    unfold mouseMoveEvent
    rw [hsel, hpan, hps]
    simp only [Bool.false_eq_true, if_false, if_true, centeredRect]
    rw [if_neg hz]
    dsimp only
    refine ⟨?_, ?_, ?_⟩
    · exact startsTileFetch_append_left _ _ _ _ _ ((load_map_fetches _ (by exact hload)).1)
    · intro hb
      exact startsBasemapFetch_append_left _ _ _ ((load_map_fetches _ (by exact hload)).2 (by exact hb))
    · intro hb
      rw [List.filter_append, load_map_no_basemap _ (by exact hb)]
      rfl
  · intro hnull hload
    unfold wheelEvent
    rw [hnull]
    simp only [Bool.false_eq_true, if_false]
    refine ⟨?_, ?_, ?_⟩
    · exact startsTileFetch_append_left _ _ _ _ _ ((load_map_fetches _ (by exact hload)).1)
    · intro hb
      exact startsBasemapFetch_append_left _ _ _ ((load_map_fetches _ (by exact hload)).2 (by exact hb))
    · intro hb
      rw [List.filter_append, load_map_no_basemap _ (by exact hb)]
      rfl
  · intro hload
    unfold zoom_to_selection
    dsimp only
    refine ⟨?_, ?_, ?_⟩
    · exact (load_map_fetches _ (by exact hload)).1
    · intro hb
      exact (load_map_fetches _ (by exact hload)).2 (by exact hb)
    · intro hb
      exact load_map_no_basemap _ (by exact hb)
  · intro h
    constructor <;> simp [load_map, h]

/-- Claim C5 counterexample: two concrete pan movements refute the claim
that every such event leads to load_map starting fresh basemap and
bathymetry loader threads. First, while a load is in progress (the loading
flag set by a previous load_map call) the pan branch runs (pan_start
advances to the new position) yet no loader thread of either kind is
started. Second, with the basemap layer disabled a pan starts the
bathymetry tile loader but no basemap loader. -/
theorem pan_busy_no_fetch :
    ((mouseMoveEvent demoPanBusy (10, 10)).1.pan_start = some (10, 10) ∧
     (mouseMoveEvent demoPanBusy (10, 10)).2.filter Eff.isLoaderStart = []) ∧
    ((mouseMoveEvent demoPanNoBasemap (10, 10)).2.filter
        Eff.isTileStart).length = 1 ∧
    (mouseMoveEvent demoPanNoBasemap (10, 10)).2.filter
      Eff.isBasemapStart = [] := by
  refine ⟨⟨rfl, rfl⟩, rfl, rfl⟩

/-- Claim C5 witness: a pan movement on the demo widget with no load in
progress does start a bathymetry tile fetch for the panned extent. -/
theorem fetch_dispatch_on_events_witness :
    startsTileFetch (mouseMoveEvent demoPanFree (10, 10)).2
      demoPanFree.base_url (mouseMoveEvent demoPanFree (10, 10)).1.extent
      demoPanFree.raster_function :=
  ((fetch_dispatch_on_events demoPanFree (0, 0) (10, 10) 1
      { xmin := 0, ymin := 0, xmax := 1, ymax := 1 }).1
    rfl rfl rfl (by decide) rfl).1

/-- Claim C1 (amended): when both raster pixmaps are available, repainting
draws the basemap first, then the bathymetry layer blended with the current
bathymetry_opacity, then only selection overlays on top. -/
theorem paint_layer_order (s : MapWidgetState)
    (hb : s.show_basemap = true) (hbm : s.basemap_pixmap.isNull = false)
    (hcp : s.current_pixmap.isNull = false) :
    paintEvent s =
      DrawOp.drawBasemap
        (Int.fdiv ((s.widgetW : ℤ) - (s.basemap_pixmap.width : ℤ)) 2)
        (Int.fdiv ((s.widgetH : ℤ) - (s.basemap_pixmap.height : ℤ)) 2)
        s.basemap_pixmap ::
      DrawOp.drawBathymetry
        (Int.fdiv ((s.widgetW : ℤ) - (s.current_pixmap.width : ℤ)) 2)
        (Int.fdiv ((s.widgetH : ℤ) - (s.current_pixmap.height : ℤ)) 2)
        s.current_pixmap s.bathymetry_opacity ::
      selectionOverlayOps s ∧
    ∀ op ∈ selectionOverlayOps s, op.isSelectionOverlay = true := by
  constructor
  · simp [paintEvent, hb, hbm, hcp]
  · intro op hop
    unfold selectionOverlayOps at hop
    rcases List.mem_append.mp hop with h | h
    · cases hs1 : s.selected_bbox_world with
      | none => simp [hs1] at h
      | some bb =>
        cases hr : world_bbox_to_screen_rect s bb with
        | none => simp [hs1, hr] at h
        | some r =>
          simp [hs1, hr] at h
          subst h
          rfl
    · cases hs1 : s.selection_start with
      | none => simp [hs1] at h
      | some a =>
        cases hs2 : s.selection_end with
        | none => simp [hs1, hs2] at h
        | some b =>
          simp [hs1, hs2] at h
          subst h
          rfl

/-- Claim C1 witness: the repaint of the concrete demo state with both
pixmaps present produces exactly basemap, bathymetry, overlays. -/
theorem paint_layer_order_witness :
    paintEvent paintDemo =
      DrawOp.drawBasemap
        (Int.fdiv ((paintDemo.widgetW : ℤ) - (paintDemo.basemap_pixmap.width : ℤ)) 2)
        (Int.fdiv ((paintDemo.widgetH : ℤ) - (paintDemo.basemap_pixmap.height : ℤ)) 2)
        paintDemo.basemap_pixmap ::
      DrawOp.drawBathymetry
        (Int.fdiv ((paintDemo.widgetW : ℤ) - (paintDemo.current_pixmap.width : ℤ)) 2)
        (Int.fdiv ((paintDemo.widgetH : ℤ) - (paintDemo.current_pixmap.height : ℤ)) 2)
        paintDemo.current_pixmap paintDemo.bathymetry_opacity ::
      selectionOverlayOps paintDemo ∧
    ∀ op ∈ selectionOverlayOps paintDemo, op.isSelectionOverlay = true :=
  paint_layer_order paintDemo rfl rfl rfl

/-- Claim C1 counterexample: at a concrete repaint with both raster pixmaps
present, the bathymetry layer is composited but no hillshade layer is: the
paint routine issues no hillshade drawing command, refuting the claim that
repainting composites a hillshade raster layer alongside basemap and
bathymetry. -/
theorem paint_no_hillshade_layer :
    (paintEvent paintDemo).any DrawOp.isHillshade = false ∧
    (paintEvent paintDemo).any DrawOp.isBathymetry = true := by
  constructor <;> rfl

/-- Claim C2: whenever init_map_widget reaches the widget-creation attempt
(a service extent is known, the map group and its layout exist, and no
widget exists yet), the keyword argument show_hillshade passed at the
MapWidget constructor call binds to no parameter of MapWidget.__init__, the
resulting TypeError is caught, and map_widget is left as None: through this
path no map widget is ever created. -/
theorem init_map_widget_type_error (s : MainWindowState) (ext : Extent)
    (h1 : s.service_extent = some ext) (h2 : s.map_group_present = true)
    (h3 : s.map_group_has_layout = true) (h4 : s.map_widget = none) :
    keywordCallBinds mapWidgetInitParams initCallPositionalCount
      initCallKeywords = false ∧
    (init_map_widget s).1.map_widget = none ∧
    (init_map_widget s).2 = [InitEvent.caughtTypeError] := by
  have hkb : keywordCallBinds mapWidgetInitParams initCallPositionalCount
      initCallKeywords = false := by decide
  refine ⟨hkb, ?_, ?_⟩ <;>
  · unfold init_map_widget
    rw [h1, h2, h3, h4]
    simp [hkb]

/-- Claim C2 witness: on the concrete startup state the attempt leaves
map_widget as None and records the caught TypeError. -/
theorem init_map_widget_type_error_witness :
    (init_map_widget demoMain).1.map_widget = none ∧
    (init_map_widget demoMain).2 = [InitEvent.caughtTypeError] :=
  ⟨(init_map_widget_type_error demoMain _ rfl rfl rfl rfl).2.1,
   (init_map_widget_type_error demoMain _ rfl rfl rfl rfl).2.2⟩

/-- Claim C3: with a stored selection bbox, an output path and a cell size,
start_download refuses with the Selection Too Large warning exactly when a
pixel dimension int((extent span) / cell_size) exceeds 14000, and otherwise
dispatches the downloader thread. -/
theorem start_download_threshold (s : MainWindowState) (bb : Extent)
    (hbb : s.selected_bbox = some bb) (hpath : ¬(s.output_path = "")) :
    (14000 < pyInt ((bb.xmax - bb.xmin) / s.cell_size) ∨
       14000 < pyInt ((bb.ymax - bb.ymin) / s.cell_size) →
      start_download s = DownloadAction.warnTooLarge
        (pyInt ((bb.xmax - bb.xmin) / s.cell_size))
        (pyInt ((bb.ymax - bb.ymin) / s.cell_size))) ∧
    (pyInt ((bb.xmax - bb.xmin) / s.cell_size) ≤ 14000 →
      pyInt ((bb.ymax - bb.ymin) / s.cell_size) ≤ 14000 →
      start_download s = DownloadAction.dispatch s.base_url bb s.output_path
        s.output_crs s.cell_size 14000) := by
  constructor
  · intro h
    unfold start_download
    rw [hbb]
    dsimp only
    rw [if_neg hpath, if_pos h]
  · intro h1 h2
    unfold start_download
    rw [hbb]
    dsimp only
    rw [if_neg hpath,
        if_neg (by rw [not_or]; exact ⟨not_lt.mpr h1, not_lt.mpr h2⟩)]

/-- Claim C3 witness: a 5600 m x 4000 m selection at 4 m cells (1400 x 1000
pixels) is dispatched. -/
theorem start_download_threshold_witness :
    start_download demoMainReady = DownloadAction.dispatch
      demoMainReady.base_url { xmin := 0, ymin := 0, xmax := 5600, ymax := 4000 }
      demoMainReady.output_path demoMainReady.output_crs
      demoMainReady.cell_size 14000 :=
  (start_download_threshold demoMainReady
      { xmin := 0, ymin := 0, xmax := 5600, ymax := 4000 } rfl (by decide)).2
    (by norm_num [pyInt, demoMainReady, demoMain])
    (by norm_num [pyInt, demoMainReady, demoMain])
